import Mathlib

/-!
# Token maker contract (`study_demo/token/maker.go`)

The package declares one interface, `Maker`, with two methods:

    CreateToken(username string, duration time.Duration) (string, error)
    VerifyToken(token string) (*Payload, error)

The embedding keeps Go's result shapes: a result is a pair whose second
component is a nilable `error`, and `*Payload` is a nilable pointer.  A method
call runs in a state `σ` (the receiver together with whatever ambient state the
method reads, such as the clock) and hands a state back.

The `Payload` type and every implementation of the interface live outside the
file at hand; they are modelled from the specification and marked as such.
The token format is a parameter of the modelled implementation, and nothing is
assumed of it: what a created token decodes to is whatever the format says.
-/

namespace token

/-- Go's `time.Duration`: a signed count of nanoseconds. -/
abbrev Duration := Int

/-- An instant on the clock, as a signed count of nanoseconds. -/
abbrev Time := Int

/-- A non-nil Go `error` value, identified by its message. -/
structure Error where
  msg : String
deriving DecidableEq, Repr

/-- Modelled from the spec: the `Payload` type, which `maker.go` mentions but
does not declare.  The specification gives it "at minimum ... a username and an
expiry or issued-at time"; the token it is recovered from is "associated with a
username and an expiry". -/
structure Payload where
  Username : String
  ExpiredAt : Time
deriving DecidableEq, Repr

/-- The `Maker` interface: its method set, `CreateToken` and `VerifyToken`,
with the parameter and result types of the declaration.  The state `σ` the call
runs in is passed explicitly and returned. -/
structure Maker (σ : Type) where
  CreateToken : String → Duration → σ → (String × Option Error) × σ
  VerifyToken : String → σ → (Option Payload × Option Error) × σ

/-- Modelled from the spec: the token format, which the specification leaves
open ("format, signing algorithm, encoding ... unspecified"), together with the
errors the operations fail with ("an unspecified error").  `encode` serializes
the claims or fails; `decode` recovers the claims of a token or rejects it as
malformed or otherwise invalid; `errExpired` is the error for an expired
token. -/
structure Scheme where
  encode : Payload → Except Error String
  decode : String → Except Error Payload
  errExpired : Error

/-- Modelled from the spec: a token is expired once its validity duration has
elapsed, that is, from the instant of its expiry on. -/
def Payload.expired (p : Payload) (now : Time) : Bool :=
  decide (p.ExpiredAt ≤ now)

/-- Modelled from the spec: the implementation behind `Maker`, absent from the
source.  The state is the clock reading at the call.

* `CreateToken`: "given a principal identifier and a validity duration,
  produces a serialized token string or fails with an error"; the token is
  "associated with a username and an expiry".
* `VerifyToken`: "returns the decoded payload if valid, or fails with an error
  if the token is malformed, expired, or otherwise invalid". -/
def specMaker (sch : Scheme) : Maker Time where
  CreateToken := fun username duration now =>
    match sch.encode { Username := username, ExpiredAt := now + duration } with
    | .ok s => ((s, none), now)
    | .error e => (("", some e), now)
  VerifyToken := fun tok now =>
    match sch.decode tok with
    | .error e => ((none, some e), now)
    | .ok p =>
      if p.expired now then ((none, some sch.errExpired), now)
      else ((some p, none), now)

/-- C2. For every token string and clock reading, `VerifyToken` returns
exactly one of a payload with a nil error or an error with a nil payload; it
returns the payload exactly when the token decodes and is not expired, and an
error for every malformed token and for every expired token. -/
theorem VerifyToken_payload_or_error (sch : Scheme) (tok : String) (now : Time) :
    ((∃ p, ((specMaker sch).VerifyToken tok now).1 = (some p, none)) ∨
      (∃ e, ((specMaker sch).VerifyToken tok now).1 = (none, some e))) ∧
    ¬ ((∃ p, ((specMaker sch).VerifyToken tok now).1 = (some p, none)) ∧
      (∃ e, ((specMaker sch).VerifyToken tok now).1 = (none, some e))) ∧
    ((∃ p, ((specMaker sch).VerifyToken tok now).1 = (some p, none)) ↔
      ∃ p, sch.decode tok = .ok p ∧ p.expired now = false) ∧
    ((∃ e, sch.decode tok = .error e) →
      ∃ e, ((specMaker sch).VerifyToken tok now).1 = (none, some e)) ∧
    (∀ p, sch.decode tok = .ok p → p.expired now = true →
      ∃ e, ((specMaker sch).VerifyToken tok now).1 = (none, some e)) := by
  cases hd : sch.decode tok with
  | error e => simp [specMaker, hd]
  | ok p =>
    cases hx : p.expired now <;> simp [specMaker, hd, hx]

/-- C4. The `Maker` contract is exactly the two operations `CreateToken` and
`VerifyToken`: an implementation is determined by them, and any two operations
of these signatures form one. -/
theorem Maker_exactly_two_operations (σ : Type) :
    Function.Bijective
      (fun m : Maker σ => (m.CreateToken, m.VerifyToken)) := by
  constructor
  · rintro ⟨c1, v1⟩ ⟨c2, v2⟩ h
    simp only [Prod.mk.injEq] at h
    obtain ⟨rfl, rfl⟩ := h
    rfl
  · rintro ⟨c, v⟩
    exact ⟨{ CreateToken := c, VerifyToken := v }, rfl⟩

end token
